import Mathlib

/-!
Shallow embedding of the Brother P-touch protocol engine of the
`ptouch-esp32` repository, together with theorems checking the
natural-language specification against it.

Bytes are modelled as `Nat` values; machine-integer truncation is made
explicit with `% 256` where the C code casts to `uint8_t`.  Frames sent
over the USB bulk endpoint are `List Nat`; a sequence of frames is a
`List (List Nat)`.  The USB transport itself is external to the engine
and is modelled as always delivering a frame in full (`usbSend` returns
the number of bytes, which is positive for the nonempty frames below);
the status response read from the wire is passed in as an explicit
`List Nat` argument.

All definitions are translated from
`src/components/ptouch-esp32/src/ptouch_printer.cpp`,
`src/components/ptouch-esp32/src/ptouch_printing.cpp` and
`src/components/ptouch-esp32/src/ptouch_debug.c`; definitions whose
name carries a `_spec` marker are instead rendered from the
specification's words for comparison against the code.
-/

namespace PTouch

/-! ## Device capability flags (ptouch_esp32.h) -/

def FLAG_NONE : Nat := 0
def FLAG_UNSUP_RASTER : Nat := 1
def FLAG_RASTER_PACKBITS : Nat := 2
def FLAG_PLITE : Nat := 4
def FLAG_P700_INIT : Nat := 8
def FLAG_USE_INFO_CMD : Nat := 16
def FLAG_HAS_PRECUT : Nat := 32
def FLAG_D460BT_MAGIC : Nat := 64

/-- Test of `flags & FLAG_X` as used throughout the C code. -/
def hasFlag (flags flag : Nat) : Bool := Nat.land flags flag ≠ 0

/-! ## Device profile registry (ptouch_printer.cpp, `supported_devices`) -/

/-- Device information structure `pt_dev_info` (ptouch_esp32.h). -/
structure PtDevInfo where
  vid : Nat
  pid : Nat
  name : String
  max_px : Nat
  dpi : Nat
  flags : Nat
deriving DecidableEq

/-- The `supported_devices` table (without the all-zero terminator entry,
which only marks the end of the C array). -/
def supported_devices : List PtDevInfo :=
  [⟨0x04f9, 0x2001, "PT-9200DX", 384, 360, FLAG_RASTER_PACKBITS + FLAG_HAS_PRECUT⟩,
   ⟨0x04f9, 0x2004, "PT-2300", 112, 180, FLAG_RASTER_PACKBITS + FLAG_HAS_PRECUT⟩,
   ⟨0x04f9, 0x2007, "PT-2420PC", 128, 180, FLAG_RASTER_PACKBITS⟩,
   ⟨0x04f9, 0x2011, "PT-2450PC", 128, 180, FLAG_RASTER_PACKBITS⟩,
   ⟨0x04f9, 0x2019, "PT-1950", 112, 180, FLAG_RASTER_PACKBITS⟩,
   ⟨0x04f9, 0x201f, "PT-2700", 128, 180, FLAG_HAS_PRECUT⟩,
   ⟨0x04f9, 0x202c, "PT-1230PC", 128, 180, FLAG_NONE⟩,
   ⟨0x04f9, 0x202d, "PT-2430PC", 128, 180, FLAG_NONE⟩,
   ⟨0x04f9, 0x2030, "PT-1230PC (PLite Mode)", 128, 180, FLAG_PLITE⟩,
   ⟨0x04f9, 0x2031, "PT-2430PC (PLite Mode)", 128, 180, FLAG_PLITE⟩,
   ⟨0x04f9, 0x2041, "PT-2730", 128, 180, FLAG_NONE⟩,
   ⟨0x04f9, 0x205e, "PT-H500", 128, 180, FLAG_RASTER_PACKBITS⟩,
   ⟨0x04f9, 0x205f, "PT-E500", 128, 180, FLAG_RASTER_PACKBITS⟩,
   ⟨0x04f9, 0x2061, "PT-P700", 128, 180, FLAG_RASTER_PACKBITS + FLAG_P700_INIT + FLAG_HAS_PRECUT⟩,
   ⟨0x04f9, 0x2062, "PT-P750W", 128, 180, FLAG_RASTER_PACKBITS + FLAG_P700_INIT⟩,
   ⟨0x04f9, 0x2064, "PT-P700 (PLite Mode)", 128, 180, FLAG_PLITE⟩,
   ⟨0x04f9, 0x2065, "PT-P750W (PLite Mode)", 128, 180, FLAG_PLITE⟩,
   ⟨0x04f9, 0x20df, "PT-D410", 128, 180, FLAG_USE_INFO_CMD + FLAG_HAS_PRECUT + FLAG_D460BT_MAGIC⟩,
   ⟨0x04f9, 0x2073, "PT-D450", 128, 180, FLAG_USE_INFO_CMD⟩,
   ⟨0x04f9, 0x20e0, "PT-D460BT", 128, 180, FLAG_P700_INIT + FLAG_USE_INFO_CMD + FLAG_HAS_PRECUT + FLAG_D460BT_MAGIC⟩,
   ⟨0x04f9, 0x2074, "PT-D600", 128, 180, FLAG_RASTER_PACKBITS⟩,
   ⟨0x04f9, 0x20e1, "PT-D610BT", 128, 180, FLAG_P700_INIT + FLAG_USE_INFO_CMD + FLAG_HAS_PRECUT + FLAG_D460BT_MAGIC⟩,
   ⟨0x04f9, 0x20af, "PT-P710BT", 128, 180, FLAG_RASTER_PACKBITS + FLAG_HAS_PRECUT⟩,
   ⟨0x04f9, 0x2201, "PT-E310BT", 128, 180, FLAG_P700_INIT + FLAG_USE_INFO_CMD + FLAG_D460BT_MAGIC⟩]

/-- The PT-D460BT catalog entry (pid 0x20e0), used by the concrete scenarios. -/
def devD460BT : PtDevInfo :=
  ⟨0x04f9, 0x20e0, "PT-D460BT", 128, 180,
   FLAG_P700_INIT + FLAG_USE_INFO_CMD + FLAG_HAS_PRECUT + FLAG_D460BT_MAGIC⟩

/-! ## Tape table (ptouch_printer.cpp, `tape_info`)

Each entry of `pt_tape_info` is (tape width in mm, printing area in px);
the third C field, the default margin in mm (a `double`), is carried by
no claim and is not consumed by any modelled function, so it is omitted
here. -/

def tape_info : List (Nat × Nat) :=
  [(4, 24), (6, 32), (9, 52), (12, 76), (18, 120), (24, 128), (36, 192)]

/-- The tape lookup loop of `PtouchPrinter::getStatus`: scan the table in
order, take the `px` of the first entry whose `mm` equals the media width,
and keep the current value `cur` of `tape_width_px` when nothing matches. -/
def tapeLookupLoop : List (Nat × Nat) → Nat → Nat → Nat
  | [], _, cur => cur
  | (mm, px) :: rest, w, cur => if mm = w then px else tapeLookupLoop rest w cur

/-! ## Status frame (ptouch_esp32.h `ptouch_stat`, 32 packed bytes) -/

/-- Printer status structure `ptouch_stat`.  Multi-byte fields
(`reserved_1`, `error`, `phase_number`, `hw_setting`, `reserved_2`) are
little-endian on the wire, matching the packed struct layout on the
ESP32. -/
structure PtouchStat where
  printheadmark : Nat
  size : Nat
  brother_code : Nat
  series_code : Nat
  model : Nat
  country : Nat
  reserved_1 : Nat
  error : Nat
  media_width : Nat
  media_type : Nat
  ncol : Nat
  fonts : Nat
  jp_fonts : Nat
  mode : Nat
  density : Nat
  media_len : Nat
  status_type : Nat
  phase_type : Nat
  phase_number : Nat
  notif_number : Nat
  exp : Nat
  tape_color : Nat
  text_color : Nat
  hw_setting : Nat
  reserved_2 : Nat
deriving DecidableEq

/-- The `memcpy(status, response, 32)` of `getStatus`, spelled out over the
packed `ptouch_stat` layout: byte 0 printheadmark, 1 size, 2 brother_code,
3 series_code, 4 model, 5 country, 6-7 reserved_1, 8-9 error, 10
media_width, 11 media_type, 12 ncol, 13 fonts, 14 jp_fonts, 15 mode, 16
density, 17 media_len, 18 status_type, 19 phase_type, 20-21 phase_number,
22 notif_number, 23 exp, 24 tape_color, 25 text_color, 26-29 hw_setting,
30-31 reserved_2. -/
def decodeStat (b : List Nat) : PtouchStat :=
  ⟨b.getD 0 0, b.getD 1 0, b.getD 2 0, b.getD 3 0, b.getD 4 0, b.getD 5 0,
   b.getD 6 0 + 256 * b.getD 7 0,
   b.getD 8 0 + 256 * b.getD 9 0,
   b.getD 10 0, b.getD 11 0, b.getD 12 0, b.getD 13 0, b.getD 14 0,
   b.getD 15 0, b.getD 16 0, b.getD 17 0, b.getD 18 0, b.getD 19 0,
   b.getD 20 0 + 256 * b.getD 21 0,
   b.getD 22 0, b.getD 23 0, b.getD 24 0, b.getD 25 0,
   b.getD 26 0 + 256 * b.getD 27 0 + 65536 * b.getD 28 0 + 16777216 * b.getD 29 0,
   b.getD 30 0 + 256 * b.getD 31 0⟩

/-- The zeroed status produced by `memset(status, 0, sizeof(ptouch_stat))`
in the constructor (and on disconnect). -/
def zeroStat : PtouchStat := ⟨0,0,0,0,0,0,0,0,0,0,0,0,0,0,0,0,0,0,0,0,0,0,0,0,0⟩

/-- The mutable engine state touched by a status poll: the stored status
snapshot and the derived tape width in pixels. -/
structure PrinterState where
  status : PtouchStat
  tape_width_px : Nat
deriving DecidableEq

/-- State of a freshly constructed `PtouchPrinter` (status zeroed,
`tape_width_px = 0`). -/
def initialPrinterState : PrinterState := ⟨zeroStat, 0⟩

/-- The 3-byte status request frame `1B 69 53` sent by `getStatus`. -/
def statusRequestCmd : List Nat := [0x1b, 0x69, 0x53]

/-- Core of `PtouchPrinter::getStatus` (ptouch_printer.cpp): after sending
`statusRequestCmd`, a response of exactly 32 bytes is copied into the status
snapshot and the tape width is recomputed through the tape table; any other
received length returns `false` and leaves the state untouched.  The bytes
actually received on the IN endpoint are the argument `response`. -/
def getStatusModel (st : PrinterState) (response : List Nat) : Bool × PrinterState :=
  if response.length = 32 then
    let s := decodeStat response
    (true, ⟨s, tapeLookupLoop tape_info s.media_width st.tape_width_px⟩)
  else
    (false, st)

/-! ## Command encoder (ptouch_printer.cpp) -/

/-- The 102-byte invalidate command of `initPrinter`: 100 zero bytes
followed by ESC `@`. -/
def invalidateCmd : List Nat := List.replicate 100 0 ++ [0x1b, 0x40]

/-- Frames emitted by `PtouchPrinter::initPrinter`: the two-byte ESC `@`
init first when `FLAG_P700_INIT` is set, then always the invalidate
command. -/
def initPrinterFrames (dev : PtDevInfo) : List (List Nat) :=
  (if hasFlag dev.flags FLAG_P700_INIT then [[0x1b, 0x40]] else []) ++ [invalidateCmd]

/-- Frame of `PtouchPrinter::enablePackBits`: `4D 02`. -/
def enablePackBitsFrame : List Nat := [0x4d, 0x02]

/-- Frame of `PtouchPrinter::sendInfoCommand`: a 13-byte template of which
only the first 12 bytes are sent (`sizeof(cmd) - 1`).  Byte 5 is the
current media width, bytes 7-10 the little-endian `size_x`, byte 11 is 2
exactly when `FLAG_D460BT_MAGIC` is set. -/
def sendInfoCommandFrame (dev : PtDevInfo) (media_width : Nat) (size_x : Nat) : List Nat :=
  [0x1b, 0x69, 0x7a, 0x00, 0x00, media_width % 256, 0x00,
   size_x % 256, size_x / 256 % 256, size_x / 65536 % 256, size_x / 16777216 % 256,
   if hasFlag dev.flags FLAG_D460BT_MAGIC then 0x02 else 0x00]

/-- Frame of `PtouchPrinter::sendPreCutCommand`. -/
def preCutFrame (precut : Bool) : List Nat :=
  [0x1b, 0x69, 0x4d, if precut then 0x40 else 0x00]

/-- Frames of `PtouchPrinter::sendMagicCommands`: the D460BT chain command
followed by the D460BT magic command. -/
def magicCommandFrames : List (List Nat) :=
  [[0x1b, 0x69, 0x4b, 0x00], [0x1b, 0x69, 0x64, 0x0e, 0x00, 0x4d, 0x00]]

/-- Frame of `PtouchPrinter::rasterStart`: the P700-series variant
`1B 69 61 01` when `FLAG_P700_INIT` is set, else `1B 69 52 01`. -/
def rasterStartFrame (dev : PtDevInfo) : List Nat :=
  if hasFlag dev.flags FLAG_P700_INIT then [0x1b, 0x69, 0x61, 0x01]
  else [0x1b, 0x69, 0x52, 0x01]

/-- Encoder of `PtouchPrinter::sendRasterLine`: `none` models the early
`return -1` when the payload exceeds `max_px / 8` (nothing is sent in that
case).  With `FLAG_RASTER_PACKBITS` the frame is
`47 (len+1) 00 (len-1) data`; the two length bytes are `uint8_t` casts of
`size_t` arithmetic, hence the `% 256` (and `(len + 255) % 256` renders the
cast of `len - 1`, which wraps to 255 when `len = 0`).  Without the flag
the frame is `47 len 00 data`. -/
def sendRasterLine (dev : PtDevInfo) (data : List Nat) : Option (List Nat) :=
  if data.length > dev.max_px / 8 then
    none
  else if hasFlag dev.flags FLAG_RASTER_PACKBITS then
    some (0x47 :: (data.length + 1) % 256 :: 0x00 :: (data.length + 255) % 256 :: data)
  else
    some (0x47 :: data.length % 256 :: 0x00 :: data)

/-- Frame of the components `PtouchPrinter::setPageFlags`
(ptouch_printer.cpp line 780): `1B 69 4D` followed by the flags byte. -/
def setPageFlagsFrame (flags : Nat) : List Nat := [0x1b, 0x69, 0x4d, flags % 256]

/-- Frame chosen by `PtouchPrinter::finalizePrint` (ptouch_printer.cpp):
the chain code `0C` only when chaining on a non-D460BT device, else the
eject code `1A`. -/
def finalizePrintFrame (dev : PtDevInfo) (chain : Bool) : List Nat :=
  if chain ∧ ¬ hasFlag dev.flags FLAG_D460BT_MAGIC then [0x0c] else [0x1a]

/-! ## Raster pixel packing (ptouch_printer.cpp / ptouch_printing.cpp) -/

/-- The `PtouchPrinter::setRasterPixel` helper: a pin position outside
`[0, size*8)` is silently ignored; otherwise bit `pixel % 8` of byte
`(size - 1) - pixel / 8` is OR-ed in.  `pixel` is a C `int`, hence `Int`
here. -/
def setRasterPixel (line : List Nat) (pixel : Int) : List Nat :=
  if pixel < 0 ∨ (line.length * 8 : Int) ≤ pixel then line
  else
    line.set (line.length - 1 - pixel.toNat / 8)
      ((line.getD (line.length - 1 - pixel.toNat / 8) 0) ||| (1 <<< (pixel.toNat % 8)))

/-- Reads the source bitmap bit for pixel (x, y): row-major rows of
`(width + 7) / 8` bytes, MSB first (`bit_pos = 7 - (x % 8)`). -/
def pixelAt (bitmap : List Nat) (width x y : Nat) : Bool :=
  Nat.testBit (bitmap.getD (y * ((width + 7) / 8) + x / 8) 0) (7 - x % 8)

/-- Reads pin position `p` of a raster line under the reversed head
addressing: byte index `(N - 1) - p / 8`, bit `p % 8` counted from the
least-significant bit, where `N` is the line length in bytes. -/
def rasterPinSet (line : List Nat) (p : Nat) : Bool :=
  Nat.testBit (line.getD (line.length - 1 - p / 8) 0) (p % 8)

/-- One iteration of the inner row loop of the column rasteriser in
`ptouch_printing.cpp printBitmap`: if source pixel (x, y) is set, set pin
`offset + (height - 1 - y)` of the line being built. -/
def rasterStep (bitmap : List Nat) (width height x : Nat) (offset : Int)
    (line : List Nat) (y : Nat) : List Nat :=
  if pixelAt bitmap width x y then
    setRasterPixel line (offset + ((height : Int) - 1 - y))
  else line

/-- The inner loop of the column rasteriser in
`ptouch_printing.cpp printBitmap`: starting from a zeroed line of `n`
bytes, every set source pixel (x, y) sets pin `offset + (height - 1 - y)`
of column x's raster line. -/
def buildRasterLine (bitmap : List Nat) (width height : Nat) (x : Nat) (n : Nat)
    (offset : Int) : List Nat :=
  (List.range height).foldl (rasterStep bitmap width height x offset)
    (List.replicate n 0)

/-- The centering offset `(max_pixels / 2) - (height / 2)` computed with C
`int` division on the two non-negative halves. -/
def centerOffset (max_px height : Nat) : Int :=
  ((max_px / 2 : Nat) : Int) - ((height / 2 : Nat) : Int)

/-! ## Print job traces (ptouch_printing.cpp / ptouch_printer.cpp)

The repository carries two divergent `PtouchPrinter::printBitmap`
bodies in the same component, one in `ptouch_printing.cpp` and one in
`ptouch_printer.cpp`; both are embedded, with the file of origin in the
name. -/

/-- The per-column raster loop of `ptouch_printing.cpp printBitmap`:
build a centred raster line for each column `x` and send it, aborting on
a failed line.  The first component is the running success flag; the
second collects the emitted frames. -/
def rasterLoop_printing (dev : PtDevInfo) (bitmap : List Nat) (width height : Nat)
    (offset : Int) : Bool × List (List Nat) :=
  (List.range width).foldl
    (fun acc x =>
      if acc.1 then
        match sendRasterLine dev (buildRasterLine bitmap width height x (dev.max_px / 8) offset) with
        | some f => (true, acc.2 ++ [f])
        | none => (false, acc.2)
      else acc)
    (true, [])

/-- The `printBitmap` of `ptouch_printing.cpp` (lines 31-138): status
poll, tape-height check, centering offset, then — in this order —
optional PackBits enable, raster start, optional info command with
`size_x = width`, optional D460BT chain+magic, optional pre-cut, the
per-column raster lines, and the finalize frame.  The connection /
initialization and bitmap-null guards of the C code precede everything
modelled here.  The components `finalizePrint` sends `1A`, then misreads
the positive `usbSend` byte count as failure and returns `false` before
its form-feed frame; `printBitmap` in turn compares that `false` against
0, so the job still reports success with the trace ending at `1A`. -/
def printBitmap_printing (dev : PtDevInfo) (st0 : PrinterState) (response : List Nat)
    (bitmap : List Nat) (width height : Nat) (chain : Bool) :
    Bool × List (List Nat) × PrinterState :=
  let g := getStatusModel st0 response
  if ¬ g.1 then (false, [statusRequestCmd], st0)
  else
    let st := g.2
    if height > st.tape_width_px then (false, [statusRequestCmd], st)
    else
      let offset := centerOffset dev.max_px height
      let pre := [statusRequestCmd]
        ++ (if hasFlag dev.flags FLAG_RASTER_PACKBITS then [enablePackBitsFrame] else [])
        ++ [rasterStartFrame dev]
        ++ (if hasFlag dev.flags FLAG_USE_INFO_CMD then
              [sendInfoCommandFrame dev st.status.media_width width] else [])
        ++ (if hasFlag dev.flags FLAG_D460BT_MAGIC then magicCommandFrames else [])
        ++ (if hasFlag dev.flags FLAG_HAS_PRECUT then [preCutFrame true] else [])
      let loop := rasterLoop_printing dev bitmap width height offset
      if ¬ loop.1 then (false, pre ++ loop.2, st)
      else (true, pre ++ loop.2 ++ [[0x1a]], st)

/-- Row `y` of the source bitmap as sent by `ptouch_printer.cpp
printBitmap`: the `bytes_per_line` bytes starting at
`bitmap + y * bytes_per_line`. -/
def rowBytes (bitmap : List Nat) (bytes_per_line y : Nat) : List Nat :=
  (List.range bytes_per_line).map (fun i => bitmap.getD (y * bytes_per_line + i) 0)

/-- The per-row raster loop of `ptouch_printer.cpp printBitmap`. -/
def rasterLoop_printer (dev : PtDevInfo) (bitmap : List Nat) (bytes_per_line height : Nat) :
    Bool × List (List Nat) :=
  (List.range height).foldl
    (fun acc y =>
      if acc.1 then
        match sendRasterLine dev (rowBytes bitmap bytes_per_line y) with
        | some f => (true, acc.2 ++ [f])
        | none => (false, acc.2)
      else acc)
    (true, [])

/-- The `printBitmap` of `ptouch_printer.cpp` (lines 810-902): parameter
and width checks, status poll, `hasError` check, then optional D460BT
chain (only when chaining) plus the magic commands, optional PackBits
enable, optional info command with `size_x = height`, raster start, the
`height` raster rows, and `finalizePrint`. -/
def printBitmap_printer (dev : PtDevInfo) (st0 : PrinterState) (response : List Nat)
    (bitmap : List Nat) (width height : Nat) (chain : Bool) :
    Bool × List (List Nat) × PrinterState :=
  if width = 0 ∨ height = 0 then (false, [], st0)
  else if width > dev.max_px then (false, [], st0)
  else
    let g := getStatusModel st0 response
    if ¬ g.1 then (false, [statusRequestCmd], st0)
    else
      let st := g.2
      if st.status.error ≠ 0 then (false, [statusRequestCmd], st)
      else
        let pre := [statusRequestCmd]
          ++ (if hasFlag dev.flags FLAG_D460BT_MAGIC then
                (if chain then [[0x1b, 0x69, 0x4b, 0x00]] else []) ++ magicCommandFrames
              else [])
          ++ (if hasFlag dev.flags FLAG_RASTER_PACKBITS then [enablePackBitsFrame] else [])
          ++ (if hasFlag dev.flags FLAG_USE_INFO_CMD then
                [sendInfoCommandFrame dev st.status.media_width height] else [])
          ++ [rasterStartFrame dev]
        let loop := rasterLoop_printer dev bitmap ((width + 7) / 8) height
        if ¬ loop.1 then (false, pre ++ loop.2, st)
        else (true, pre ++ loop.2 ++ [finalizePrintFrame dev chain], st)

/-! ## Protocol classifier (ptouch_debug.c) -/

/-- The closed command enumeration `ptouch_protocol_cmd_t`. -/
inductive PtouchCmd where
  | unknown
  | init
  | statusRequest
  | info
  | packbitsEnable
  | rasterStart
  | rasterLine
  | precut
  | finalize
  | d460btMagic
  | d460btChain
  | pageFlags
  | feedPaper
  | cutPaper
deriving DecidableEq

/-- The ESC-i code switch of `ptouch_debug_identify_command`; `none`
models falling out of the C `switch` without returning. -/
def escICodeSwitch (c : Nat) : Option PtouchCmd :=
  if c = 0x53 then some .statusRequest
  else if c = 0x7a then some .info
  else if c = 0x52 then some .rasterStart
  else if c = 0x61 then some .rasterStart
  else if c = 0x4d then some .precut
  else if c = 0x4b then some .d460btChain
  else if c = 0x64 then some .d460btMagic
  else none

/-- The single-byte switch of `ptouch_debug_identify_command`.  In the C
code this check sits inside the `length >= 2` block, so it can never
fire; it is translated faithfully nonetheless. -/
def singleByteSwitch (c : Nat) : Option PtouchCmd :=
  if c = 0x1a then some .finalize
  else if c = 0x0c then some .cutPaper
  else if c = 0x5a then some .feedPaper
  else none

/-- The body of the `length >= 2` block of
`ptouch_debug_identify_command`, flattened into the first-return-wins
chain the C control flow realises; `none` models reaching the end of the
block without returning.  (When `data[0] = 0x1B` none of the later `4D`,
`47` or single-byte checks can fire in the C code, so the flat chain is
equivalent.) -/
def identifyLen2Block (data : List Nat) : Option PtouchCmd :=
  if 2 ≤ data.length then
    if data.getD 0 0 = 0x1b ∧ 3 ≤ data.length ∧ data.getD 1 0 = 0x69
        ∧ (escICodeSwitch (data.getD 2 0)).isSome then
      escICodeSwitch (data.getD 2 0)
    else if data.getD 0 0 = 0x1b ∧ data.getD 1 0 = 0x40 then some .init
    else if data.getD 0 0 = 0x4d ∧ data.getD 1 0 = 0x02 then some .packbitsEnable
    else if data.getD 0 0 = 0x47 then some .rasterLine
    else if data.length = 1 then singleByteSwitch (data.getD 0 0)
    else none
  else none

/-- The trailing long-initialization check of
`ptouch_debug_identify_command`: at least 102 bytes, the first 100 all
zero, followed by ESC `@` at offsets 100 and 101. -/
def isLongInit (data : List Nat) : Bool :=
  102 ≤ data.length
    ∧ (List.range 100).all (fun i => data.getD i 0 = 0)
    ∧ data.getD 100 0 = 0x1b ∧ data.getD 101 0 = 0x40

/-- The classifier `ptouch_debug_identify_command`: empty input is Unknown; then the
`length >= 2` pattern block; then the 102-byte invalidate sequence; else
Unknown. -/
def identifyCommand (data : List Nat) : PtouchCmd :=
  if data.length = 0 then .unknown
  else
    match identifyLen2Block data with
    | some c => c
    | none => if isLongInit data then .init else .unknown

/-- Structured rendering of the strings built by
`ptouch_debug_get_command_description`; each constructor is one format
string, with the formatted `%zu` length argument where the C string has
one. -/
inductive CmdDescription where
  | invalidateInit (bytes : Nat)
  | initCommand
  | statusRequest
  | infoCommand (bytes : Nat)
  | packbitsEnable
  | rasterStartP700
  | rasterStartStd
  | rasterLine (bytes : Nat)
  | precut
  | finalize
  | d460btMagic
  | d460btChain
  | feedPaper
  | cutPaper
  | unknown (bytes : Nat)
deriving DecidableEq

/-- The describer `ptouch_debug_get_command_description`: classify, then format.  An
Init of 102 bytes or more is reported as "Invalidate + Init (N bytes)", a
raster start with third byte `0x61` as the P700 variant, a raster line as
"Raster line (N bytes)" where N is the frame's byte count. -/
def describeCommand (data : List Nat) : CmdDescription :=
  match identifyCommand data with
  | .init => if 102 ≤ data.length then .invalidateInit data.length else .initCommand
  | .statusRequest => .statusRequest
  | .info => .infoCommand data.length
  | .packbitsEnable => .packbitsEnable
  | .rasterStart =>
      if 3 ≤ data.length ∧ data.getD 1 0 = 0x69 ∧ data.getD 2 0 = 0x61 then .rasterStartP700
      else .rasterStartStd
  | .rasterLine => .rasterLine data.length
  | .precut => .precut
  | .finalize => .finalize
  | .d460btMagic => .d460btMagic
  | .d460btChain => .d460btChain
  | .feedPaper => .feedPaper
  | .cutPaper => .cutPaper
  | .pageFlags => .unknown data.length
  | .unknown => .unknown data.length

/-! ## Error description (ptouch_printer.cpp, `getErrorDescription`) -/

/-- The `getErrorDescription` switch: an exact-value match of the whole
16-bit `status->error` against the seven documented single-bit codes;
zero is "No error" and everything else is "Unknown error". -/
def getErrorDescription (error : Nat) : String :=
  if error = 0 then "No error"
  else if error = 0x01 then "No media"
  else if error = 0x02 then "End of media"
  else if error = 0x04 then "Cutter jam"
  else if error = 0x08 then "Weak batteries"
  else if error = 0x10 then "High voltage adapter"
  else if error = 0x40 then "Replace media"
  else if error = 0x80 then "Expansion buffer full"
  else "Unknown error"

/-- Rendered from the specification's words for comparison with the code:
"`errorDescription` mapping the low byte of `errorCode` via exact-value
switch".  The match is performed on `error % 256` instead of on the whole
16-bit value. -/
def errorDescription_lowByte_spec (error : Nat) : String :=
  if error = 0 then "No error"
  else if error % 256 = 0x01 then "No media"
  else if error % 256 = 0x02 then "End of media"
  else if error % 256 = 0x04 then "Cutter jam"
  else if error % 256 = 0x08 then "Weak batteries"
  else if error % 256 = 0x10 then "High voltage adapter"
  else if error % 256 = 0x40 then "Replace media"
  else if error % 256 = 0x80 then "Expansion buffer full"
  else "Unknown error"

/-! ## Concrete scenario of claim C1: PT-D460BT, 128 x 60 all-white bitmap -/

/-- A 32-byte status response reporting 12 mm tape (byte 10), laminated
media, no error. -/
def c1StatusResponse : List Nat :=
  [0x80, 0x20, 0x42, 0x30, 0x65, 0x30, 0, 0, 0, 0, 12, 0x01,
   0, 0, 0, 0, 0, 0, 0, 0, 0, 0, 0, 0, 0x01, 0x08, 0, 0, 0, 0, 0, 0]

/-- A 128-wide, 60-high all-white bitmap: 16 bytes per row, 60 rows. -/
def c1Bitmap : List Nat := List.replicate 960 0

/-- A 32-byte status response whose media-width byte (offset 10) is 5 mm,
a width that appears in no tape-table entry. -/
def c6UnmatchedWidthResponse : List Nat :=
  [0x80, 0x20, 0x42, 0x30, 0x65, 0x30, 0, 0, 0, 0, 5, 0x01,
   0, 0, 0, 0, 0, 0, 0, 0, 0, 0, 0, 0, 0x01, 0x08, 0, 0, 0, 0, 0, 0]

/-- Session byte-frame trace of the `ptouch_printing.cpp` print path on
the C1 scenario: the `initPrinter` frames issued at connect time followed
by the frames of `printBitmap` (chain = false). -/
def c1SessionTrace_printing : List (List Nat) :=
  initPrinterFrames devD460BT
    ++ (printBitmap_printing devD460BT initialPrinterState c1StatusResponse c1Bitmap
          128 60 false).2.1

/-- Session byte-frame trace of the `ptouch_printer.cpp` print path on
the C1 scenario. -/
def c1SessionTrace_printer : List (List Nat) :=
  initPrinterFrames devD460BT
    ++ (printBitmap_printer devD460BT initialPrinterState c1StatusResponse c1Bitmap
          128 60 false).2.1

/-- Rendered from the specification's words: the frame sequence claim C1
requires for the C1 scenario — init(P700), invalidate, status
acquisition, D460BT chain, D460BT magic, info command with sizeX = 60,
raster start (P700 variant), precut(enabled), 128 raster lines in column
order (all blank for the all-white bitmap), finalize(eject). -/
def c1ClaimedFrames : List (List Nat) :=
  [[0x1b, 0x40], invalidateCmd, statusRequestCmd,
   [0x1b, 0x69, 0x4b, 0x00], [0x1b, 0x69, 0x64, 0x0e, 0x00, 0x4d, 0x00],
   [0x1b, 0x69, 0x7a, 0x00, 0x00, 12, 0x00, 60, 0x00, 0x00, 0x00, 0x02],
   [0x1b, 0x69, 0x61, 0x01], [0x1b, 0x69, 0x4d, 0x40]]
  ++ (List.range 128).map (fun _ => [0x47, 0x10, 0x00] ++ List.replicate 16 0)
  ++ [[0x1a]]

/-! ## Helper lemmas -/

theorem escICodeSwitch_ne_pageFlags (c : Nat) :
    escICodeSwitch c ≠ some PtouchCmd.pageFlags := by
  unfold escICodeSwitch; split_ifs <;> simp

theorem singleByteSwitch_ne_pageFlags (c : Nat) :
    singleByteSwitch c ≠ some PtouchCmd.pageFlags := by
  unfold singleByteSwitch; split_ifs <;> simp

theorem identifyLen2Block_ne_pageFlags (data : List Nat) :
    identifyLen2Block data ≠ some PtouchCmd.pageFlags := by
  unfold identifyLen2Block
  split_ifs <;>
    first
    | exact escICodeSwitch_ne_pageFlags _
    | exact singleByteSwitch_ne_pageFlags _
    | simp

theorem supported_devices_max_px_le :
    ∀ d ∈ supported_devices, d.max_px ≤ 384 := by
  intro d hd
  have h := List.all_eq_true.mp
    (by decide : supported_devices.all (fun d => decide (d.max_px ≤ 384)) = true) d hd
  simpa using h

/-! ## Claim theorems -/

/-- C7: classifying a 102-byte buffer of 100 zero bytes followed by
`1B 40` yields `Init` — the long invalidate-sequence rule applies even
though the bytes `1B 40` sit embedded at offset 100. -/
theorem spec_c7_long_invalidate_classifies_init :
    identifyCommand (List.replicate 100 0 ++ [0x1b, 0x40]) = PtouchCmd.init := by
  decide

/-- C10: the packet classifier never returns `PageFlags` for any input
buffer, and the page-flags frame the encoder emits (`1B 69 4D` plus the
flags byte) classifies as `Precut` for every flags value, because it
shares its 3-byte opcode prefix with the pre-cut command. -/
theorem spec_c10_pageFlags_unreachable :
    (∀ data : List Nat, identifyCommand data ≠ PtouchCmd.pageFlags)
    ∧ ∀ flags : Nat, identifyCommand (setPageFlagsFrame flags) = PtouchCmd.precut := by
  constructor
  · intro data
    unfold identifyCommand
    by_cases h0 : data.length = 0
    · simp [h0]
    · rw [if_neg h0]
      cases h : identifyLen2Block data with
      | none => by_cases hL : isLongInit data <;> simp [hL]
      | some c =>
          have hne := identifyLen2Block_ne_pageFlags data
          rw [h] at hne
          simpa using hne
  · intro flags
    simp [identifyCommand, setPageFlagsFrame, identifyLen2Block, escICodeSwitch]

/-- C9 counterexample: the code's `getErrorDescription` matches the whole
16-bit error value, not its low byte; at error code `0x0101` the code
yields "Unknown error" while the low-byte exact match the claim describes
yields "No media". -/
theorem spec_c9_counterexample :
    getErrorDescription 0x0101 = "Unknown error"
    ∧ errorDescription_lowByte_spec 0x0101 = "No media"
    ∧ getErrorDescription 0x0101 ≠ errorDescription_lowByte_spec 0x0101 := by
  refine ⟨by decide, by decide, by decide⟩

/-- C9 (amended): the error-description lookup matches the full 16-bit
error code by exact value against the seven documented single-bit codes;
every other nonzero value — including the combination 0x05 = 0x01|0x04 —
yields "Unknown error". -/
theorem spec_c9_error_description_exact_match :
    getErrorDescription 0x05 = "Unknown error"
    ∧ (∀ e : Nat, e ≠ 0 →
        e ∉ ([0x01, 0x02, 0x04, 0x08, 0x10, 0x40, 0x80] : List Nat) →
        getErrorDescription e = "Unknown error")
    ∧ getErrorDescription 0x01 = "No media"
    ∧ getErrorDescription 0x02 = "End of media"
    ∧ getErrorDescription 0x04 = "Cutter jam"
    ∧ getErrorDescription 0x08 = "Weak batteries"
    ∧ getErrorDescription 0x10 = "High voltage adapter"
    ∧ getErrorDescription 0x40 = "Replace media"
    ∧ getErrorDescription 0x80 = "Expansion buffer full" := by
  refine ⟨by decide, ?_, by decide, by decide, by decide, by decide, by decide,
    by decide, by decide⟩
  intro e h0 hmem
  simp only [List.mem_cons, List.not_mem_nil, or_false] at hmem
  push_neg at hmem
  obtain ⟨n1, n2, n3, n4, n5, n6, n7⟩ := hmem
  unfold getErrorDescription
  split_ifs <;> first | rfl | omega

/-- C9 witness: the amended theorem applied at the concrete combined code
3 = 0x01|0x02. -/
theorem spec_c9_witness : getErrorDescription 3 = "Unknown error" :=
  spec_c9_error_description_exact_match.2.1 3 (by decide) (by decide)

/-- The tape lookup loop keeps the running value on any width outside the
table's seven entries. -/
theorem tapeLookupLoop_unmatched (w cur : Nat)
    (hw : w ∉ ([4, 6, 9, 12, 18, 24, 36] : List Nat)) :
    tapeLookupLoop tape_info w cur = cur := by
  simp only [List.mem_cons, List.not_mem_nil, or_false] at hw
  push_neg at hw
  obtain ⟨n1, n2, n3, n4, n5, n6, n7⟩ := hw
  simp [tape_info, tapeLookupLoop]
  split_ifs <;> omega

/-- C6 counterexample: an unmatched media width does not derive a tape
width of 0 — the lookup loop has no else branch, so the prior value
survives.  A fresh printer polls a 12 mm status frame (deriving 76 px)
and then a 5 mm frame (5 mm is in no table entry): the derived value
stays 76, not 0. -/
theorem spec_c6_counterexample :
    (5 : Nat) ∉ ([4, 6, 9, 12, 18, 24, 36] : List Nat)
    ∧ ((getStatusModel initialPrinterState c1StatusResponse).2).tape_width_px = 76
    ∧ ((getStatusModel (getStatusModel initialPrinterState c1StatusResponse).2
          c6UnmatchedWidthResponse).2).tape_width_px = 76
    ∧ ((getStatusModel (getStatusModel initialPrinterState c1StatusResponse).2
          c6UnmatchedWidthResponse).2).tape_width_px ≠ 0 := by
  decide

/-- C6 (amended): tape-width lookup is by exact millimetre match against
the fixed table (4, 6, 9, 12, 18, 24, 36 mm entries): a media width of
12 mm derives exactly 76 px from any prior state; a media width not in
the table leaves the previously derived `tape_width_px` unchanged — so
it is 0 only while nothing has matched since the fresh (constructor or
disconnect) state, whose value is 0. -/
theorem spec_c6_tape_width_lookup :
    (∀ cur : Nat, tapeLookupLoop tape_info 12 cur = 76)
    ∧ (∀ w cur : Nat, w ∉ ([4, 6, 9, 12, 18, 24, 36] : List Nat) →
        tapeLookupLoop tape_info w cur = cur)
    ∧ (∀ (st : PrinterState) (resp : List Nat), resp.length = 32 →
        resp.getD 10 0 = 12 → ((getStatusModel st resp).2).tape_width_px = 76)
    ∧ (∀ (st : PrinterState) (resp : List Nat), resp.length = 32 →
        resp.getD 10 0 ∉ ([4, 6, 9, 12, 18, 24, 36] : List Nat) →
        ((getStatusModel st resp).2).tape_width_px = st.tape_width_px)
    ∧ initialPrinterState.tape_width_px = 0 := by
  refine ⟨?_, ?_, ?_, ?_, by decide⟩
  · intro cur
    simp [tape_info, tapeLookupLoop]
  · intro w cur hw
    exact tapeLookupLoop_unmatched w cur hw
  · intro st resp h32 h10
    have hmw : (decodeStat resp).media_width = 12 := by simpa [decodeStat] using h10
    simp [getStatusModel, h32, hmw, tape_info, tapeLookupLoop]
  · intro st resp h32 hw
    have hmw := tapeLookupLoop_unmatched ((decodeStat resp).media_width)
      st.tape_width_px (by simpa [decodeStat] using hw)
    simp [getStatusModel, h32, hmw]

/-- C6 witness: the amended theorem applied at the unmatched width 5 mm
from the fresh state (value 0 retained), at the concrete 12 mm C1 status
response, and at the 5 mm response arriving after the 12 mm one (value 76
retained). -/
theorem spec_c6_witness :
    tapeLookupLoop tape_info 5 0 = 0
    ∧ ((getStatusModel initialPrinterState c1StatusResponse).2).tape_width_px = 76
    ∧ ((getStatusModel (getStatusModel initialPrinterState c1StatusResponse).2
          c6UnmatchedWidthResponse).2).tape_width_px
        = ((getStatusModel initialPrinterState c1StatusResponse).2).tape_width_px :=
  ⟨spec_c6_tape_width_lookup.2.1 5 0 (by decide),
   spec_c6_tape_width_lookup.2.2.1 initialPrinterState c1StatusResponse
     (by decide) (by decide),
   spec_c6_tape_width_lookup.2.2.2.1 (getStatusModel initialPrinterState c1StatusResponse).2
     c6UnmatchedWidthResponse (by decide) (by decide)⟩

/-- C5: a raster-line payload longer than `max_px / 8` always fails: the
encoder returns the error result and emits nothing (no truncated frame is
produced). -/
theorem spec_c5_line_too_long_rejected (dev : PtDevInfo) (data : List Nat)
    (h : dev.max_px / 8 < data.length) : sendRasterLine dev data = none := by
  simp [sendRasterLine, h]

/-- C5 witness: a 17-byte payload on the PT-D460BT (16-byte limit). -/
theorem spec_c5_witness :
    devD460BT.max_px / 8 < (List.replicate 17 0).length
    ∧ sendRasterLine devD460BT (List.replicate 17 0) = none :=
  ⟨by decide, spec_c5_line_too_long_rejected devD460BT (List.replicate 17 0) (by decide)⟩

/-- C4: a status poll succeeds exactly when 32 response bytes arrive; any
other length reports failure and leaves the stored status snapshot and
the derived tape width completely unchanged. -/
theorem spec_c4_status_wrong_length (st : PrinterState) (resp : List Nat) :
    ((getStatusModel st resp).1 = true ↔ resp.length = 32)
    ∧ (resp.length ≠ 32 → (getStatusModel st resp).2 = st) := by
  constructor
  · by_cases h : resp.length = 32 <;> simp [getStatusModel, h]
  · intro h; simp [getStatusModel, h]

/-- C4 witness: a 31-byte response leaves the fresh printer state
untouched. -/
theorem spec_c4_witness :
    (List.replicate 31 (0 : Nat)).length ≠ 32
    ∧ (getStatusModel initialPrinterState (List.replicate 31 0)).2 = initialPrinterState :=
  ⟨by decide,
   (spec_c4_status_wrong_length initialPrinterState (List.replicate 31 0)).2 (by decide)⟩

/-- C2: for a payload within the device limit, the PackBits profile frame
is exactly `47 (len+1) 00 (len-1) data` (len+4 bytes) and the plain
profile frame is exactly `47 len 00 data` (len+3 bytes). -/
theorem spec_c2_raster_line_encoding (dev : PtDevInfo) (hdev : dev ∈ supported_devices)
    (data : List Nat) (h1 : 1 ≤ data.length) (h2 : data.length ≤ dev.max_px / 8) :
    (hasFlag dev.flags FLAG_RASTER_PACKBITS = true →
        sendRasterLine dev data
          = some ([0x47, data.length + 1, 0x00, data.length - 1] ++ data)
        ∧ ([0x47, data.length + 1, 0x00, data.length - 1] ++ data).length
            = data.length + 4)
    ∧ (hasFlag dev.flags FLAG_RASTER_PACKBITS = false →
        sendRasterLine dev data = some ([0x47, data.length, 0x00] ++ data)
        ∧ ([0x47, data.length, 0x00] ++ data).length = data.length + 3) := by
  have hmax : dev.max_px ≤ 384 := supported_devices_max_px_le dev hdev
  have hlen : data.length ≤ 48 := by omega
  have hnot : ¬ data.length > dev.max_px / 8 := by omega
  constructor <;> intro hf
  · refine ⟨?_, by simp⟩
    simp only [sendRasterLine, if_neg hnot, hf, if_pos]
    simp only [List.cons_append, List.nil_append, Option.some.injEq, List.cons.injEq,
      eq_self_iff_true, true_and, and_true]
    omega
  · refine ⟨?_, by simp⟩
    simp only [sendRasterLine, if_neg hnot, hf, Bool.false_eq_true, if_false]
    simp only [List.cons_append, List.nil_append, Option.some.injEq, List.cons.injEq,
      eq_self_iff_true, true_and, and_true]
    omega

/-- C2 witness: the theorem applied to a 2-byte payload, on the PackBits
PT-P700 profile and on the plain PT-D460BT profile. -/
theorem spec_c2_witness :
    (sendRasterLine ⟨0x04f9, 0x2061, "PT-P700", 128, 180,
        FLAG_RASTER_PACKBITS + FLAG_P700_INIT + FLAG_HAS_PRECUT⟩ [0xaa, 0x55]
       = some [0x47, 3, 0x00, 1, 0xaa, 0x55])
    ∧ sendRasterLine devD460BT [0xaa, 0x55] = some [0x47, 2, 0x00, 0xaa, 0x55] :=
  ⟨((spec_c2_raster_line_encoding _ (by decide) [0xaa, 0x55] (by decide) (by decide)).1
      (by decide)).1,
   ((spec_c2_raster_line_encoding devD460BT (by decide) [0xaa, 0x55] (by decide)
      (by decide)).2 (by decide)).1⟩

/-- C8: encoding a raster line with `RasterPackBits` unset and then
classifying the emitted frame yields `RasterLine`, and the description
reports the frame's byte count `L + 3`, from which the payload length `L`
is recovered. -/
theorem spec_c8_encode_classify_roundtrip (dev : PtDevInfo) (data : List Nat)
    (hflag : hasFlag dev.flags FLAG_RASTER_PACKBITS = false)
    (hlen : data.length ≤ dev.max_px / 8) :
    sendRasterLine dev data = some (0x47 :: data.length % 256 :: 0x00 :: data)
    ∧ identifyCommand (0x47 :: data.length % 256 :: 0x00 :: data) = PtouchCmd.rasterLine
    ∧ describeCommand (0x47 :: data.length % 256 :: 0x00 :: data)
        = CmdDescription.rasterLine (data.length + 3)
    ∧ (0x47 :: data.length % 256 :: 0x00 :: data).length = data.length + 3 := by
  have hnot : ¬ data.length > dev.max_px / 8 := by omega
  have hid : identifyCommand (0x47 :: data.length % 256 :: 0x00 :: data)
      = PtouchCmd.rasterLine := by
    unfold identifyCommand identifyLen2Block
    simp
  refine ⟨?_, hid, ?_, by simp⟩
  · simp [sendRasterLine, if_neg hnot, hflag]
  · unfold describeCommand
    rw [hid]
    simp

/-- C8 witness: a 1-byte payload on the PT-D460BT profile. -/
theorem spec_c8_witness :
    sendRasterLine devD460BT [0xaa] = some [0x47, 1, 0x00, 0xaa]
    ∧ identifyCommand [0x47, 1, 0x00, 0xaa] = PtouchCmd.rasterLine
    ∧ describeCommand [0x47, 1, 0x00, 0xaa] = CmdDescription.rasterLine 4 := by
  have h := spec_c8_encode_classify_roundtrip devD460BT [0xaa] (by decide) (by decide)
  exact ⟨h.1, h.2.1, h.2.2.1⟩

/-! ## Raster pixel-packing lemmas (for claim C3) -/

theorem getD_replicate_zero (r n : Nat) : (List.replicate r (0 : Nat)).getD n 0 = 0 := by
  induction r generalizing n with
  | zero => simp
  | succ r ih => cases n <;> simp [List.replicate_succ, ih]

theorem getD_set_self (l : List Nat) (i a : Nat) (h : i < l.length) :
    (l.set i a).getD i 0 = a := by
  rw [List.getD_eq_getElem?_getD, List.getElem?_set_eq_of_lt a h]
  rfl

theorem getD_set_ne (l : List Nat) (i j a : Nat) (h : i ≠ j) :
    (l.set i a).getD j 0 = l.getD j 0 := by
  rw [List.getD_eq_getElem?_getD, List.getElem?_set_ne h, ← List.getD_eq_getElem?_getD]

theorem setRasterPixel_length (line : List Nat) (pixel : Int) :
    (setRasterPixel line pixel).length = line.length := by
  unfold setRasterPixel
  split_ifs
  · rfl
  · simp

theorem setRasterPixel_out (line : List Nat) (pixel : Int)
    (h : pixel < 0 ∨ (line.length * 8 : Int) ≤ pixel) :
    setRasterPixel line pixel = line := by
  unfold setRasterPixel
  rw [if_pos h]

theorem rasterPinSet_replicate (n q : Nat) :
    rasterPinSet (List.replicate n 0) q = false := by
  unfold rasterPinSet
  simp [getD_replicate_zero]

/-- Effect of `setRasterPixel` on an in-range pin: pin `q` is set in the
result exactly when it was set before or `q` is the written pin. -/
theorem setRasterPixel_pin (line : List Nat) (pixel : Int) (q : Nat)
    (h0 : 0 ≤ pixel) (h1 : pixel < (line.length * 8 : Int))
    (hq : q < line.length * 8) :
    rasterPinSet (setRasterPixel line pixel) q
      = (rasterPinSet line q || decide ((q : Int) = pixel)) := by
  have hne : ¬ (pixel < 0 ∨ (line.length * 8 : Int) ≤ pixel) := by omega
  have hpq : pixel.toNat < line.length * 8 := by omega
  have hNpos : 0 < line.length := by omega
  unfold setRasterPixel rasterPinSet
  rw [if_neg hne, List.length_set]
  by_cases hdiv : q / 8 = pixel.toNat / 8
  · rw [hdiv]
    have hlt : line.length - 1 - pixel.toNat / 8 < line.length := by omega
    rw [getD_set_self _ _ _ hlt, Nat.one_shiftLeft, Nat.testBit_lor]
    congr 1
    by_cases heq : (q : Int) = pixel
    · have hq' : q = pixel.toNat := by omega
      subst hq'
      simp [Nat.testBit_two_pow_self, Int.toNat_of_nonneg h0]
    · have hmod : pixel.toNat % 8 ≠ q % 8 := by omega
      simp [Nat.testBit_two_pow_of_ne hmod, heq]
  · have hidxne : line.length - 1 - pixel.toNat / 8 ≠ line.length - 1 - q / 8 := by
      omega
    rw [getD_set_ne _ _ _ _ hidxne]
    have hne' : ¬ ((q : Int) = pixel) := by omega
    simp [hne']

/-- Invariant of the column-rasteriser loop after the first `k` rows:
the line keeps its `n` bytes, and pin `q` is set exactly when some
already-processed row `y` has its source pixel set and maps to `q`. -/
theorem buildRasterLine_loop (bitmap : List Nat) (width height x n : Nat)
    (offset : Int) (k : Nat) :
    (((List.range k).foldl (rasterStep bitmap width height x offset)
        (List.replicate n 0)).length = n)
    ∧ ∀ q : Nat, q < n * 8 →
        (rasterPinSet ((List.range k).foldl (rasterStep bitmap width height x offset)
            (List.replicate n 0)) q = true
         ↔ ∃ y : Nat, y < k ∧ pixelAt bitmap width x y = true
             ∧ (q : Int) = offset + ((height : Int) - 1 - y)) := by
  induction k with
  | zero =>
      refine ⟨by simp, ?_⟩
      intro q hq
      simp [rasterPinSet_replicate]
  | succ k ih =>
      obtain ⟨ihlen, ihpin⟩ := ih
      rw [List.range_succ, List.foldl_append, List.foldl_cons, List.foldl_nil]
      have hstep : rasterStep bitmap width height x offset
          ((List.range k).foldl (rasterStep bitmap width height x offset)
            (List.replicate n 0)) k
          = if pixelAt bitmap width x k then
              setRasterPixel
                ((List.range k).foldl (rasterStep bitmap width height x offset)
                  (List.replicate n 0))
                (offset + ((height : Int) - 1 - k))
            else
              (List.range k).foldl (rasterStep bitmap width height x offset)
                (List.replicate n 0) := rfl
      rw [hstep]
      by_cases hpix : pixelAt bitmap width x k
      · rw [if_pos hpix]
        by_cases hrange : 0 ≤ offset + ((height : Int) - 1 - k)
            ∧ offset + ((height : Int) - 1 - k) < (n * 8 : Int)
        · constructor
          · rw [setRasterPixel_length, ihlen]
          · intro q hq
            rw [setRasterPixel_pin _ _ _ hrange.1 (by rw [ihlen]; exact_mod_cast hrange.2)
                (by rw [ihlen]; exact hq)]
            simp only [Bool.or_eq_true, decide_eq_true_eq, ihpin q hq]
            constructor
            · rintro (⟨y, hy, hp, he⟩ | he)
              · exact ⟨y, by omega, hp, he⟩
              · exact ⟨k, by omega, hpix, he⟩
            · rintro ⟨y, hy, hp, he⟩
              by_cases hyk : y = k
              · right; rw [← hyk]; exact he
              · left; exact ⟨y, by omega, hp, he⟩
        · rw [setRasterPixel_out _ _ (by rw [ihlen]; omega)]
          refine ⟨ihlen, ?_⟩
          intro q hq
          rw [ihpin q hq]
          constructor
          · rintro ⟨y, hy, hp, he⟩
            exact ⟨y, by omega, hp, he⟩
          · rintro ⟨y, hy, hp, he⟩
            by_cases hyk : y = k
            · subst hyk
              exfalso
              omega
            · exact ⟨y, by omega, hp, he⟩
      · rw [if_neg hpix]
        refine ⟨ihlen, ?_⟩
        intro q hq
        rw [ihpin q hq]
        constructor
        · rintro ⟨y, hy, hp, he⟩
          exact ⟨y, by omega, hp, he⟩
        · rintro ⟨y, hy, hp, he⟩
          by_cases hyk : y = k
          · subst hyk
            exact absurd hp hpix
          · exact ⟨y, by omega, hp, he⟩

/-- C3: with `N = M / 8` bytes per raster line, the centering offset is
`M/2 - H/2`; the built raster line for column `x` has exactly the pins
`offset + (H - 1 - y)` set, for the rows `y` whose source pixel `(x, y)`
is set (pin `q` read at byte index `(N - 1) - q/8`, bit `q % 8` from the
least-significant bit, which is what `rasterPinSet` reads); and any write
outside `[0, M)` is silently ignored, leaving the line unchanged. -/
theorem spec_c3_raster_centering_and_addressing (M : Nat) (bitmap : List Nat)
    (width height x : Nat) (h8 : M % 8 = 0) :
    centerOffset M height = ((M / 2 : Nat) : Int) - ((height / 2 : Nat) : Int)
    ∧ (buildRasterLine bitmap width height x (M / 8) (centerOffset M height)).length
        = M / 8
    ∧ (∀ q : Nat, q < M →
        (rasterPinSet
            (buildRasterLine bitmap width height x (M / 8) (centerOffset M height)) q
            = true
         ↔ ∃ y : Nat, y < height ∧ pixelAt bitmap width x y = true
             ∧ (q : Int) = centerOffset M height + ((height : Int) - 1 - y)))
    ∧ ∀ (line : List Nat) (pixel : Int), line.length = M / 8 →
        (pixel < 0 ∨ (M : Int) ≤ pixel) → setRasterPixel line pixel = line := by
  have hM8 : M / 8 * 8 = M := by omega
  obtain ⟨hlen, hpin⟩ :=
    buildRasterLine_loop bitmap width height x (M / 8) (centerOffset M height) height
  refine ⟨rfl, hlen, ?_, ?_⟩
  · intro q hq
    exact hpin q (by omega)
  · intro line pixel hline hout
    exact setRasterPixel_out line pixel (by rw [hline]; omega)

/-- C3 witness: a 1 x 1 bitmap with its single pixel set, on a 16-pin
head: the centred line has exactly pin 8 set, stored as bit 0 of byte 0
of the 2-byte line. -/
theorem spec_c3_witness :
    (16 % 8 = 0)
    ∧ (rasterPinSet (buildRasterLine [0x80] 1 1 0 2 (centerOffset 16 1)) 8 = true
        ↔ ∃ y : Nat, y < 1 ∧ pixelAt [0x80] 1 0 y = true
            ∧ (8 : Int) = centerOffset 16 1 + ((1 : Int) - 1 - y)) :=
  ⟨by decide,
   (spec_c3_raster_centering_and_addressing 16 [0x80] 1 1 0 (by decide)).2.2.1 8
     (by decide)⟩

/-! ## Print-trace structure lemmas (for claim C1) -/

theorem buildRasterLine_length (bitmap : List Nat) (width height x n : Nat)
    (offset : Int) : (buildRasterLine bitmap width height x n offset).length = n :=
  (buildRasterLine_loop bitmap width height x n offset height).1

/-- A send loop that aborts on a failed frame emits, when no frame fails,
exactly the per-index frames in order. -/
theorem sendLoop_spec (f : Nat → Option (List Nat)) :
    ∀ (l : List Nat) (acc : List (List Nat)),
      (∀ x ∈ l, (f x).isSome = true) →
      l.foldl
        (fun acc x =>
          if acc.1 then
            match f x with
            | some fr => (true, acc.2 ++ [fr])
            | none => (false, acc.2)
          else acc)
        (true, acc)
      = (true, acc ++ l.map (fun x => (f x).getD []))
  | [], acc, _ => by simp
  | x :: xs, acc, h => by
      simp only [List.foldl_cons, List.map_cons]
      obtain ⟨fr, hfr⟩ := Option.isSome_iff_exists.mp (h x (by simp))
      rw [hfr]
      have hrec := sendLoop_spec f xs (acc ++ [fr]) (fun y hy => h y (by simp [hy]))
      simp only [if_true] at hrec ⊢
      rw [hrec]
      simp [hfr]

theorem rasterLoop_printing_spec (dev : PtDevInfo) (bitmap : List Nat)
    (width height : Nat) (offset : Int) :
    rasterLoop_printing dev bitmap width height offset
      = (true, (List.range width).map (fun x =>
          (sendRasterLine dev (buildRasterLine bitmap width height x (dev.max_px / 8)
            offset)).getD [])) := by
  have h := sendLoop_spec
    (fun x => sendRasterLine dev (buildRasterLine bitmap width height x (dev.max_px / 8)
      offset)) (List.range width) [] ?_
  · simpa [rasterLoop_printing] using h
  · intro x _
    simp only [sendRasterLine, buildRasterLine_length, gt_iff_lt, lt_self_iff_false,
      if_false]
    split_ifs <;> simp

theorem rowBytes_length (bitmap : List Nat) (bytes_per_line y : Nat) :
    (rowBytes bitmap bytes_per_line y).length = bytes_per_line := by
  simp [rowBytes]

theorem rasterLoop_printer_spec (dev : PtDevInfo) (bitmap : List Nat)
    (bytes_per_line height : Nat) (hb : bytes_per_line ≤ dev.max_px / 8) :
    rasterLoop_printer dev bitmap bytes_per_line height
      = (true, (List.range height).map (fun y =>
          (sendRasterLine dev (rowBytes bitmap bytes_per_line y)).getD [])) := by
  have h := sendLoop_spec
    (fun y => sendRasterLine dev (rowBytes bitmap bytes_per_line y))
    (List.range height) [] ?_
  · simpa [rasterLoop_printer] using h
  · intro y _
    have hngt : ¬ bytes_per_line > dev.max_px / 8 := by omega
    simp only [sendRasterLine, rowBytes_length, hngt, if_false]
    split_ifs <;> simp

/-- Frame trace of the `ptouch_printing.cpp` print path when the status
response has 32 bytes and the image fits the derived tape width. -/
theorem printBitmap_printing_frames (dev : PtDevInfo) (st0 : PrinterState)
    (resp bitmap : List Nat) (width height : Nat) (chain : Bool)
    (h32 : resp.length = 32)
    (hh : height ≤ ((getStatusModel st0 resp).2).tape_width_px) :
    printBitmap_printing dev st0 resp bitmap width height chain
      = (true,
         [statusRequestCmd]
           ++ (if hasFlag dev.flags FLAG_RASTER_PACKBITS then [enablePackBitsFrame]
               else [])
           ++ [rasterStartFrame dev]
           ++ (if hasFlag dev.flags FLAG_USE_INFO_CMD then
                 [sendInfoCommandFrame dev (decodeStat resp).media_width width] else [])
           ++ (if hasFlag dev.flags FLAG_D460BT_MAGIC then magicCommandFrames else [])
           ++ (if hasFlag dev.flags FLAG_HAS_PRECUT then [preCutFrame true] else [])
           ++ (List.range width).map (fun x =>
                (sendRasterLine dev (buildRasterLine bitmap width height x
                   (dev.max_px / 8) (centerOffset dev.max_px height))).getD [])
           ++ [[0x1a]],
         (getStatusModel st0 resp).2) := by
  have hg : (getStatusModel st0 resp).1 = true := by simp [getStatusModel, h32]
  have hst : (getStatusModel st0 resp).2.status = decodeStat resp := by
    simp [getStatusModel, h32]
  have hh' : ¬ height > ((getStatusModel st0 resp).2).tape_width_px := by omega
  unfold printBitmap_printing
  rw [if_neg (by simp [hg]), if_neg hh']
  simp [rasterLoop_printing_spec, hst, List.append_assoc]

/-- Frame trace of the `ptouch_printer.cpp` print path when the inputs
pass its guards and the decoded status carries no error. -/
theorem printBitmap_printer_frames (dev : PtDevInfo) (st0 : PrinterState)
    (resp bitmap : List Nat) (width height : Nat) (chain : Bool)
    (hw : width ≠ 0) (hhgt : height ≠ 0) (hwmax : ¬ width > dev.max_px)
    (h32 : resp.length = 32) (herr : (decodeStat resp).error = 0)
    (hb : (width + 7) / 8 ≤ dev.max_px / 8) :
    printBitmap_printer dev st0 resp bitmap width height chain
      = (true,
         [statusRequestCmd]
           ++ (if hasFlag dev.flags FLAG_D460BT_MAGIC then
                 (if chain then [[0x1b, 0x69, 0x4b, 0x00]] else [])
                   ++ magicCommandFrames
               else [])
           ++ (if hasFlag dev.flags FLAG_RASTER_PACKBITS then [enablePackBitsFrame]
               else [])
           ++ (if hasFlag dev.flags FLAG_USE_INFO_CMD then
                 [sendInfoCommandFrame dev (decodeStat resp).media_width height] else [])
           ++ [rasterStartFrame dev]
           ++ (List.range height).map (fun y =>
                (sendRasterLine dev (rowBytes bitmap ((width + 7) / 8) y)).getD [])
           ++ [finalizePrintFrame dev chain],
         (getStatusModel st0 resp).2) := by
  have hg : (getStatusModel st0 resp).1 = true := by simp [getStatusModel, h32]
  have hst : (getStatusModel st0 resp).2.status = decodeStat resp := by
    simp [getStatusModel, h32]
  unfold printBitmap_printer
  rw [if_neg (by omega), if_neg hwmax, if_neg (by simp [hg])]
  rw [if_neg (by rw [hst, herr]; simp)]
  simp [rasterLoop_printer_spec dev bitmap ((width + 7) / 8) height hb, hst,
    List.append_assoc]

/-! ## Claim C1 -/

/-- C1 counterexample: on the PT-D460BT 128 x 60 scenario, neither
`printBitmap` body of the repository emits the frame sequence the claim
states.  The `ptouch_printing.cpp` path sends raster start and the info
command (with sizeX = width = 128, not 60) before the D460BT chain/magic
pair; the `ptouch_printer.cpp` path never sends the pre-cut frame and
sends 60 row frames instead of 128 column frames. -/
theorem spec_c1_counterexample :
    c1SessionTrace_printing ≠ c1ClaimedFrames
    ∧ c1SessionTrace_printer ≠ c1ClaimedFrames := by
  constructor
  · unfold c1SessionTrace_printing
    rw [printBitmap_printing_frames devD460BT initialPrinterState c1StatusResponse
      c1Bitmap 128 60 false (by decide) (by decide)]
    decide
  · unfold c1SessionTrace_printer
    rw [printBitmap_printer_frames devD460BT initialPrinterState c1StatusResponse
      c1Bitmap 128 60 false (by decide) (by decide) (by decide) (by decide) (by decide)
      (by decide)]
    decide

/-- C1 (amended): a print job of the `ptouch_printing.cpp` path emits, in
this order: the status request, PackBits enable iff `RasterPackBits`,
raster start (P700 variant iff `P700Init`), the info command iff
`UseInfoCommand` with sizeX = image width, the D460BT chain and magic
frames iff `D460btMagic`, pre-cut (enabled) iff `HasPrecut`, all raster
lines in column order, and the finalize eject byte `1A`; the P700 init
and invalidate frames are emitted earlier, by printer initialization at
connect time. -/
theorem spec_c1_frame_order (dev : PtDevInfo) (st0 : PrinterState)
    (resp bitmap : List Nat) (width height : Nat) (chain : Bool)
    (h32 : resp.length = 32)
    (hh : height ≤ ((getStatusModel st0 resp).2).tape_width_px) :
    initPrinterFrames dev
      = (if hasFlag dev.flags FLAG_P700_INIT then [[0x1b, 0x40]] else [])
          ++ [invalidateCmd]
    ∧ (printBitmap_printing dev st0 resp bitmap width height chain).1 = true
    ∧ (printBitmap_printing dev st0 resp bitmap width height chain).2.1
      = [statusRequestCmd]
          ++ (if hasFlag dev.flags FLAG_RASTER_PACKBITS then [enablePackBitsFrame]
              else [])
          ++ [rasterStartFrame dev]
          ++ (if hasFlag dev.flags FLAG_USE_INFO_CMD then
                [sendInfoCommandFrame dev (decodeStat resp).media_width width] else [])
          ++ (if hasFlag dev.flags FLAG_D460BT_MAGIC then magicCommandFrames else [])
          ++ (if hasFlag dev.flags FLAG_HAS_PRECUT then [preCutFrame true] else [])
          ++ (List.range width).map (fun x =>
               (sendRasterLine dev (buildRasterLine bitmap width height x
                  (dev.max_px / 8) (centerOffset dev.max_px height))).getD [])
          ++ [[0x1a]] := by
  refine ⟨rfl, ?_, ?_⟩
  · rw [printBitmap_printing_frames dev st0 resp bitmap width height chain h32 hh]
  · rw [printBitmap_printing_frames dev st0 resp bitmap width height chain h32 hh]

/-- C1 witness: the amended theorem applied to the PT-D460BT 128 x 60
scenario (12 mm tape, so the 60-pixel-high image fits the 76-pixel print
area). -/
theorem spec_c1_witness :
    c1StatusResponse.length = 32
    ∧ 60 ≤ ((getStatusModel initialPrinterState c1StatusResponse).2).tape_width_px
    ∧ (printBitmap_printing devD460BT initialPrinterState c1StatusResponse c1Bitmap
        128 60 false).1 = true :=
  ⟨by decide, by decide,
   (spec_c1_frame_order devD460BT initialPrinterState c1StatusResponse c1Bitmap
      128 60 false (by decide) (by decide)).2.1⟩

end PTouch
